import Mathlib

/-!
Shallow embedding of the native bootstrap / surface-lifecycle controller in
`app/rs/src/lib.rs` (twoyi).  The module's observable behaviour is modelled as
an event trace: every call into an external collaborator (the renderer
bindings, the input subsystem, the filesystem, process spawning, the logger)
becomes one `Event`.  The only piece of mutable cross-call state in the source
is the atomic `RENDERER_STARTED : AtomicBool`; it is modelled as a `Bool`
threaded through calls.  The atomic `compare_exchange` linearizes concurrent
calls, so an arbitrary interleaving of N calls is modelled as an arbitrary
list of N calls executed in linearization order.

Modelling notes:
- JNI scalar types: `jint`/`jlong` become `Int` (the claims under study never
  exercise wrap-around); the `jfloat` dpi values are cast to `i32` in the
  source before use, so the model takes the post-cast integers as inputs; the
  literal `f32` constants `1.0` and `0.0` passed as scale/rotation become the
  exact rationals `1` and `0`.
- External fallible operations (`ANativeWindow_fromSurface`,
  `env.get_string`, `fs::read_dir`, `File::create`, `try_clone`) are
  modelled by their outcomes, supplied as fields of the call record.
- A Rust `unwrap()` on a failing result panics; the model records this in a
  `panicked` flag (events emitted before the panic are kept).
-/

namespace Twoyi

/-- One observable interaction with an external collaborator, as performed by
`lib.rs`.  Log events carry the logged payload; renderer/input/process events
carry the argument values passed across the boundary. -/
inductive Event where
  | logDebug (msg : String)
  | logInfo (width height fps safeFps : Int)
  | logError (msg : String)
  | setPermissions (path : String) (mode : Nat)
  | inputInit (width height : Int)
  | threadSpawn
  | setThreadPriority (prio : Int)
  | startRenderer (win : Nat) (width height xdpi ydpi fps : Int)
  | setNativeWindow (win : Nat)
  | resetSubWindow (win : Nat) (x y w h ow oh : Int) (scale rot : Rat)
  | removeSubWindow (win : Nat)
  | createLogFile (path : String)
  | spawnProcess (prog : String) (args : List String) (cwd : String)
      (envVars : List (String × String)) (stdoutFile stderrFile : String)
  | submitMotion (nativePtr : Int)
  | submitKey (code : Int)
deriving DecidableEq, Repr

/-- A native window resolved from a platform surface: the non-null pointer
(`ptr`, as a pointer-sized value) plus its queried width and height. -/
structure Window where
  ptr : Nat
  width : Int
  height : Int
deriving DecidableEq, Repr

/-- The inputs and external-outcome environment of one `renderer_init` call.
`resolved` is the result of `ANativeWindow_fromSurface` (`none` = null);
`loaderStr` is the result of `env.get_string` on the loader `jstring`
(`none` = failure, which the source `unwrap`s); `devInputEntries` is the
result of `fs::read_dir` on the device-input directory (entry file names);
`logCreateOk` and `tryCloneOk` are the outcomes of `File::create` and
`try_clone` on the log file. -/
structure InitCall where
  resolved : Option Window
  loaderStr : Option String
  devInputEntries : Option (List String)
  logCreateOk : Bool
  tryCloneOk : Bool
  xdpi : Int
  ydpi : Int
  fps : Int
deriving DecidableEq, Repr

/-- Result of one `renderer_init` call: the new value of `RENDERER_STARTED`,
the emitted event trace, and whether the call panicked (a failed `unwrap`). -/
structure InitResult where
  started : Bool
  events : List Event
  panicked : Bool
deriving DecidableEq, Repr

/-- `let rootfs = "/data/data/io.twoyi/rootfs";` -/
def rootfs : String := "/data/data/io.twoyi/rootfs"

/-- `let dev_input_path = format!("\x7b\x7d/dev/input", rootfs);` -/
def dev_input_path : String := rootfs ++ "/dev/input"

/-- `let working_dir = "/data/data/io.twoyi/rootfs";` -/
def working_dir : String := "/data/data/io.twoyi/rootfs"

/-- `let log_path = "/data/data/io.twoyi/log.txt";` -/
def log_path : String := "/data/data/io.twoyi/log.txt"

/-- `let safe_fps = if fps > 30 { 30 } else { fps };` -/
def safe_fps (fps : Int) : Int := if fps > 30 then 30 else fps

/-- Permission-normalization events: for each entry of a successful
`fs::read_dir(dev_input_path)`, a `set_permissions(entry.path(), 0o777)`
attempt (result discarded with `let _ =`).  A failed `read_dir` yields
nothing. -/
def permEvents (entries : Option (List String)) : List Event :=
  match entries with
  | none => []
  | some names => names.map fun n => Event.setPermissions (dev_input_path ++ "/" ++ n) 511

/-- Container-launch events of the bootstrap path, after the loader string
has been extracted: attempt `File::create(log_path)`; if it succeeds,
`try_clone` the handle (an `unwrap`, hence a panic on failure) and spawn
`nice -n 5 ./init` detached with `TYLOADER` set and stdout/stderr bound to
the log file.  Returns the events together with the panic flag. -/
def launchEvents (c : InitCall) (loader_path : String) : List Event × Bool :=
  if c.logCreateOk then
    if c.tryCloneOk then
      ([Event.createLogFile log_path,
        Event.spawnProcess "nice" ["-n", "5", "./init"] working_dir
          [("TYLOADER", loader_path)] log_path log_path], false)
    else
      ([Event.createLogFile log_path], true)
  else
    ([Event.createLogFile log_path], false)

/-- Shallow embedding of `renderer_init` (lib.rs lines 38–126).  `started` is
the current value of `RENDERER_STARTED`; the atomic
`compare_exchange(false, true, Acquire, Relaxed)` fails exactly when
`started = true`, in which case the call re-registers the sub-window;
on success it runs the full bootstrap: permission normalization, input-system
initialization, worker dispatch of the render-loop start, container launch. -/
def renderer_init (started : Bool) (c : InitCall) : InitResult :=
  let evs0 := [Event.logDebug "renderer_init"]
  match c.resolved with
  | none =>
      ⟨started, evs0 ++ [Event.logError "ANativeWindow_fromSurface was null!"], false⟩
  | some w =>
      let width := w.width
      let height := w.height
      let sfps := safe_fps c.fps
      let evs1 := evs0 ++ [Event.logInfo width height c.fps sfps]
      if started then
        ⟨true, evs1 ++
          [Event.setNativeWindow w.ptr,
           Event.resetSubWindow w.ptr 0 0 width height width height 1 0], false⟩
      else
        let evs2 := evs1 ++ permEvents c.devInputEntries ++
          [Event.inputInit width height] ++
          [Event.threadSpawn, Event.setThreadPriority (-10),
           Event.startRenderer w.ptr width height c.xdpi c.ydpi sfps]
        match c.loaderStr with
        | none => ⟨true, evs2, true⟩
        | some loader_path =>
            let l := launchEvents c loader_path
            ⟨true, evs2 ++ l.1, l.2⟩

/-- Shallow embedding of `renderer_reset_window` (lib.rs lines 129–142):
the surface is converted to a raw window pointer (`winPtr`, `0` = null, no
null check in the source) and passed straight to
`resetSubWindow(window, 0, 0, _width, _height, _width, _height, 1.0, 0.0)`;
the `_top` and `_left` arguments are unused. -/
def renderer_reset_window (winPtr : Nat) (_top _left width height : Int) : List Event :=
  [Event.resetSubWindow winPtr 0 0 width height width height 1 0]

/-- Shallow embedding of `renderer_remove_window` (lib.rs lines 144–149):
the surface is converted to a raw window pointer (no null check) and passed
to `removeSubWindow`. -/
def renderer_remove_window (winPtr : Nat) : List Event :=
  [Event.removeSubWindow winPtr]

/-- The inputs of one `handle_touch` call: whether the `jobject` itself is
null, and the outcome of reading the `mNativePtr` long field
(`get_field` may fail — outer `none` — then `.j()` may fail — inner
`none`; otherwise the pointer value). -/
structure TouchCall where
  eventNull : Bool
  nativePtrField : Option (Option Int)
deriving DecidableEq, Repr

/-- Shallow embedding of `handle_touch` (lib.rs lines 151–165): a null event
returns immediately; a failed field lookup or a null backing pointer is a
silent no-op; otherwise the motion event built from the pointer is forwarded
to `input::handle_touch` exactly once. -/
def handle_touch (c : TouchCall) : List Event :=
  if c.eventNull then []
  else
    match c.nativePtrField with
    | none => []
    | some none => []
    | some (some ptr) => if ptr = 0 then [] else [Event.submitMotion ptr]

/-- Shallow embedding of `send_key_code` (lib.rs lines 167–170): forwards the
key code to `input::send_key_code` unconditionally. -/
def send_key_code (keycode : Int) : List Event :=
  [Event.submitKey keycode]

/-- Serialized execution of a list of `renderer_init` calls, threading the
`RENDERER_STARTED` flag (any concurrent interleaving linearizes to such a
list through the atomic compare-exchange). -/
def runCalls (started : Bool) (cs : List InitCall) : List InitResult :=
  match cs with
  | [] => []
  | c :: rest =>
      let r := renderer_init started c
      r :: runCalls r.started rest

/-- An event is a log message (out-of-band diagnostics, not a collaborator
call of the renderer/input/launch interfaces). -/
def isLogEvent : Event → Bool
  | .logDebug _ => true
  | .logInfo _ _ _ _ => true
  | .logError _ => true
  | _ => false

/-- An event is an error-level log. -/
def isErrorLog : Event → Bool
  | .logError _ => true
  | _ => false

/-- An event is a call into the external renderer bindings. -/
def isRendererCall : Event → Bool
  | .setNativeWindow _ => true
  | .resetSubWindow _ _ _ _ _ _ _ _ _ => true
  | .removeSubWindow _ => true
  | .startRenderer _ _ _ _ _ _ => true
  | _ => false

/-- An event is a permission-normalization action. -/
def isPermissionEvent : Event → Bool
  | .setPermissions _ _ => true
  | _ => false

/-- An event is the input-system initialization. -/
def isInputInit : Event → Bool
  | .inputInit _ _ => true
  | _ => false

/-- An event is a call into the input subsystem (initialization or event
forwarding). -/
def isInputCall : Event → Bool
  | .inputInit _ _ => true
  | .submitMotion _ => true
  | .submitKey _ => true
  | _ => false

/-- An event is the dispatch of the render-loop worker thread. -/
def isThreadSpawn : Event → Bool
  | .threadSpawn => true
  | _ => false

/-- An event is the render-loop start call. -/
def isStartRenderer : Event → Bool
  | .startRenderer _ _ _ _ _ _ => true
  | _ => false

/-- An event is the primary-window re-registration call. -/
def isSetNativeWindow : Event → Bool
  | .setNativeWindow _ => true
  | _ => false

/-- An event is a container-launch action (log-file creation or process
spawn). -/
def isLaunchEvent : Event → Bool
  | .createLogFile _ => true
  | .spawnProcess _ _ _ _ _ _ => true
  | _ => false

/-- An event is the process spawn itself. -/
def isSpawnProcess : Event → Bool
  | .spawnProcess _ _ _ _ _ _ => true
  | _ => false

/-- A call result took the full bootstrap path (observable: the input system
was initialized). -/
def tookBootstrap (r : InitResult) : Bool := r.events.any isInputInit

/-- A call result took the re-registration path (observable: the sub-window
re-registration pair was issued). -/
def tookRereg (r : InitResult) : Bool := r.events.any isSetNativeWindow

/-- An event is a collaborator call (anything but a log message). -/
def isCollabCall (e : Event) : Bool := !isLogEvent e

/-- The events of the bootstrap path that follow the worker dispatch: the
loader-string extraction (`unwrap`, nothing emitted) followed by the
container launch attempt, or nothing if the extraction panicked. -/
def bootTail (c : InitCall) : List Event :=
  match c.loaderStr with
  | none => []
  | some s => (launchEvents c s).1

/-- Whether the bootstrap path panicked: the loader-string `unwrap`, or the
`try_clone` `unwrap` after a successful `File::create`. -/
def bootPanicked (c : InitCall) : Bool :=
  match c.loaderStr with
  | none => true
  | some s => (launchEvents c s).2

/-- A concrete bootstrap call whose loader-string extraction fails. -/
def loaderFailCall : InitCall :=
  { resolved := some ⟨1, 1080, 1920⟩, loaderStr := none,
    devInputEntries := some ["event0"], logCreateOk := true, tryCloneOk := true,
    xdpi := 320, ydpi := 320, fps := 60 }

/-- A concrete bootstrap call whose log-handle duplication (`try_clone`)
fails. -/
def cloneFailCall : InitCall :=
  { resolved := some ⟨1, 1080, 1920⟩, loaderStr := some "/data/loader",
    devInputEntries := some ["event0"], logCreateOk := true, tryCloneOk := false,
    xdpi := 320, ydpi := 320, fps := 60 }

/-- A concrete re-registration call with requested fps 20. -/
def reregCallA : InitCall :=
  { resolved := some ⟨2, 720, 1280⟩, loaderStr := some "/data/loader",
    devInputEntries := none, logCreateOk := true, tryCloneOk := true,
    xdpi := 160, ydpi := 160, fps := 20 }

/-- The same re-registration call with requested fps 60 instead. -/
def reregCallB : InitCall :=
  { reregCallA with fps := 60 }

/-- A concrete call whose surface fails to resolve to a native window. -/
def nullResCall : InitCall :=
  { resolved := none, loaderStr := some "/data/loader", devInputEntries := none,
    logCreateOk := true, tryCloneOk := true, xdpi := 160, ydpi := 160, fps := 60 }

/-- A concrete bootstrap call whose log-file creation fails. -/
def logFailCall : InitCall :=
  { resolved := some ⟨3, 1080, 2400⟩, loaderStr := some "/data/loader",
    devInputEntries := some [], logCreateOk := false, tryCloneOk := true,
    xdpi := 440, ydpi := 440, fps := 90 }

/-! ### Helper lemmas: closed forms of the three `renderer_init` paths -/

/-- Null resolution: the call logs an error and stops; the flag is unchanged
and nothing else is emitted. -/
theorem renderer_init_null (st : Bool) (c : InitCall) (hres : c.resolved = none) :
    renderer_init st c =
      ⟨st, [Event.logDebug "renderer_init",
            Event.logError "ANativeWindow_fromSurface was null!"], false⟩ := by
  obtain ⟨res, ls, de, lc, tc, xd, yd, fp⟩ := c
  subst hres
  rfl

/-- Re-registration path (compare-exchange failed): the exact result. -/
theorem renderer_init_rereg (c : InitCall) (w : Window) (hres : c.resolved = some w) :
    renderer_init true c =
      ⟨true, [Event.logDebug "renderer_init",
              Event.logInfo w.width w.height c.fps (safe_fps c.fps),
              Event.setNativeWindow w.ptr,
              Event.resetSubWindow w.ptr 0 0 w.width w.height w.width w.height 1 0],
       false⟩ := by
  obtain ⟨res, ls, de, lc, tc, xd, yd, fp⟩ := c
  subst hres
  rfl

/-- Bootstrap path (compare-exchange succeeded): the exact result. -/
theorem renderer_init_boot (c : InitCall) (w : Window) (hres : c.resolved = some w) :
    renderer_init false c =
      ⟨true,
       [Event.logDebug "renderer_init",
        Event.logInfo w.width w.height c.fps (safe_fps c.fps)] ++
       permEvents c.devInputEntries ++
       [Event.inputInit w.width w.height] ++
       [Event.threadSpawn, Event.setThreadPriority (-10),
        Event.startRenderer w.ptr w.width w.height c.xdpi c.ydpi (safe_fps c.fps)] ++
       bootTail c,
       bootPanicked c⟩ := by
  obtain ⟨res, ls, de, lc, tc, xd, yd, fp⟩ := c
  subst hres
  cases ls <;> simp [renderer_init, bootTail, bootPanicked, launchEvents]

/-- Every event of the permission-normalization phase is a permission
action. -/
theorem permEvents_perm (d : Option (List String)) :
    ∀ e ∈ permEvents d, isPermissionEvent e = true := by
  intro e he
  cases d with
  | none => simp [permEvents] at he
  | some names =>
      simp only [permEvents, List.mem_map] at he
      obtain ⟨n, _, rfl⟩ := he
      rfl

/-- Every event of the container-launch phase is a launch action. -/
theorem bootTail_launch (c : InitCall) :
    ∀ e ∈ bootTail c, isLaunchEvent e = true := by
  intro e he
  cases hls : c.loaderStr with
  | none => simp [bootTail, hls] at he
  | some s =>
      simp only [bootTail, hls, launchEvents] at he
      cases hlc : c.logCreateOk <;> cases htc : c.tryCloneOk <;>
        simp [hlc, htc] at he <;> rcases he with rfl | rfl <;> rfl

/-- The permission phase never emits a given non-permission event kind. -/
theorem permEvents_any_false (d : Option (List String)) (p : Event → Bool)
    (hp : ∀ path mode, p (Event.setPermissions path mode) = false) :
    (permEvents d).any p = false := by
  rw [List.any_eq_false]
  intro e he
  cases d with
  | none => simp [permEvents] at he
  | some names =>
      simp only [permEvents, List.mem_map] at he
      obtain ⟨n, _, rfl⟩ := he
      simp [hp]

/-- The launch phase never emits a given non-launch event kind. -/
theorem bootTail_any_false (c : InitCall) (p : Event → Bool)
    (hp1 : ∀ path, p (Event.createLogFile path) = false)
    (hp2 : ∀ prog args cwd ev o e, p (Event.spawnProcess prog args cwd ev o e) = false) :
    (bootTail c).any p = false := by
  rw [List.any_eq_false]
  intro e he
  have := bootTail_launch c e he
  cases e <;> simp [isLaunchEvent] at this <;> simp [hp1, hp2]

/-! ### Helper lemmas: path classification of a single call -/

/-- A resolving call leaves the flag set, whatever its prior value. -/
theorem renderer_init_started (st : Bool) (c : InitCall) (w : Window)
    (hres : c.resolved = some w) : (renderer_init st c).started = true := by
  cases st
  · rw [renderer_init_boot c w hres]
  · rw [renderer_init_rereg c w hres]

/-- A winning (bootstrap) call is classified as bootstrap and not as
re-registration. -/
theorem classify_boot (c : InitCall) (w : Window) (hres : c.resolved = some w) :
    tookBootstrap (renderer_init false c) = true ∧
    tookRereg (renderer_init false c) = false := by
  rw [tookBootstrap, tookRereg, renderer_init_boot c w hres]
  simp only [List.any_append]
  constructor
  · simp [isInputInit]
  · simp [isSetNativeWindow,
      permEvents_any_false c.devInputEntries isSetNativeWindow (fun _ _ => rfl),
      bootTail_any_false c isSetNativeWindow (fun _ => rfl) (fun _ _ _ _ _ _ => rfl)]

/-- A losing (re-registration) call is classified as re-registration and not
as bootstrap. -/
theorem classify_rereg (c : InitCall) (w : Window) (hres : c.resolved = some w) :
    tookBootstrap (renderer_init true c) = false ∧
    tookRereg (renderer_init true c) = true := by
  rw [tookBootstrap, tookRereg, renderer_init_rereg c w hres]
  constructor <;> simp [isInputInit, isSetNativeWindow]

/-- Once the flag is set, a run of resolving calls yields no bootstrap and
only re-registrations. -/
theorem runCalls_true_counts (cs : List InitCall)
    (hres : ∀ c ∈ cs, c.resolved.isSome = true) :
    (runCalls true cs).countP tookBootstrap = 0 ∧
    (runCalls true cs).countP tookRereg = cs.length := by
  induction cs with
  | nil => simp [runCalls]
  | cons c rest ih =>
      obtain ⟨w, hw⟩ := Option.isSome_iff_exists.mp (hres c (List.mem_cons_self c rest))
      have hrest : ∀ c' ∈ rest, c'.resolved.isSome = true :=
        fun c' hc' => hres c' (List.mem_cons_of_mem c hc')
      have hcl := classify_rereg c w hw
      have hst := renderer_init_started true c w hw
      obtain ⟨ih1, ih2⟩ := ih hrest
      rw [runCalls, hst]
      constructor
      · rw [List.countP_cons, ih1, hcl.1]
        simp
      · rw [List.countP_cons, ih2, hcl.2]
        simp

/-! ### Claim theorems -/

/-- C1: In `renderer_init`, if the compare-and-set of the bootstrap flag from
false to true succeeds (first-ever call), the full bootstrap runs in the
order: permission normalization, then input-system initialization with the
resolved window's width and height, then dispatch of the render-loop start on
a new worker thread, then container launch; if the compare-and-set fails, the
call instead performs only sub-window re-registration with offset (0,0),
scale 1.0, rotation 0.0, and the resolved window's current width/height,
never invoking the permission normalizer, input init, worker dispatch, or
container launcher. -/
theorem bootstrap_order_and_rereg_only (c : InitCall) (w : Window)
    (hres : c.resolved = some w) :
    (∃ perms launch,
      (renderer_init false c).events =
        [Event.logDebug "renderer_init",
         Event.logInfo w.width w.height c.fps (safe_fps c.fps)] ++
        perms ++
        [Event.inputInit w.width w.height] ++
        [Event.threadSpawn, Event.setThreadPriority (-10),
         Event.startRenderer w.ptr w.width w.height c.xdpi c.ydpi (safe_fps c.fps)] ++
        launch ∧
      (∀ e ∈ perms, isPermissionEvent e = true) ∧
      (∀ e ∈ launch, isLaunchEvent e = true) ∧
      (renderer_init false c).started = true) ∧
    ((renderer_init true c).events.filter isCollabCall =
       [Event.setNativeWindow w.ptr,
        Event.resetSubWindow w.ptr 0 0 w.width w.height w.width w.height 1 0] ∧
     (renderer_init true c).started = true) := by
  refine ⟨⟨permEvents c.devInputEntries, bootTail c, ?_, permEvents_perm _,
    bootTail_launch c, renderer_init_started false c w hres⟩,
    ?_, renderer_init_started true c w hres⟩
  · rw [renderer_init_boot c w hres]
  · rw [renderer_init_rereg c w hres]
    simp [isCollabCall, isLogEvent]

/-- Witness for C1 at a concrete call. -/
theorem bootstrap_order_and_rereg_only_witness :
    (renderer_init true reregCallA).events.filter isCollabCall =
      [Event.setNativeWindow 2, Event.resetSubWindow 2 0 0 720 1280 720 1280 1 0] :=
  (bootstrap_order_and_rereg_only reregCallA ⟨2, 720, 1280⟩ rfl).2.1

/-- C2: For every sequence of N ≥ 1 "surface available" notifications
(`renderer_init` calls, taken in the linearization order of the atomic
compare-exchange), exactly one call executes the full bootstrap path and the
remaining N−1 calls execute only the re-registration path. -/
theorem exactly_one_bootstrap (cs : List InitCall) (hne : cs ≠ [])
    (hres : ∀ c ∈ cs, c.resolved.isSome = true) :
    (runCalls false cs).countP tookBootstrap = 1 ∧
    (runCalls false cs).countP tookRereg = cs.length - 1 := by
  cases cs with
  | nil => exact absurd rfl hne
  | cons c rest =>
      obtain ⟨w, hw⟩ := Option.isSome_iff_exists.mp (hres c (List.mem_cons_self c rest))
      have hrest : ∀ c' ∈ rest, c'.resolved.isSome = true :=
        fun c' hc' => hres c' (List.mem_cons_of_mem c hc')
      have hcl := classify_boot c w hw
      have hst := renderer_init_started false c w hw
      obtain ⟨h1, h2⟩ := runCalls_true_counts rest hrest
      rw [runCalls, hst]
      constructor
      · rw [List.countP_cons, h1, hcl.1]
        simp
      · rw [List.countP_cons, h2, hcl.2]
        simp

/-- Witness for C2 on a concrete two-call sequence. -/
theorem exactly_one_bootstrap_witness :
    (runCalls false [reregCallA, reregCallB]).countP tookBootstrap = 1 ∧
    (runCalls false [reregCallA, reregCallB]).countP tookRereg = 1 :=
  exactly_one_bootstrap [reregCallA, reregCallB] (by decide) (by decide)

/-- C3: The frame rate passed to the render-loop start call equals 30
whenever the requested fps is greater than 30, and equals the requested fps
unchanged whenever the requested fps is at most 30, including 0 and negative
values. -/
theorem fps_clamp (c : InitCall) (w : Window) (hres : c.resolved = some w) :
    (c.fps > 30 →
       Event.startRenderer w.ptr w.width w.height c.xdpi c.ydpi 30
         ∈ (renderer_init false c).events) ∧
    (c.fps ≤ 30 →
       Event.startRenderer w.ptr w.width w.height c.xdpi c.ydpi c.fps
         ∈ (renderer_init false c).events) := by
  have hmem : Event.startRenderer w.ptr w.width w.height c.xdpi c.ydpi (safe_fps c.fps)
      ∈ (renderer_init false c).events := by
    rw [renderer_init_boot c w hres]
    simp
  constructor
  · intro h
    rwa [safe_fps, if_pos h] at hmem
  · intro h
    rwa [safe_fps, if_neg (not_lt.mpr h)] at hmem

/-- Witness for C3: fps 60 is clamped to 30; fps 20 passes through. -/
theorem fps_clamp_witness :
    Event.startRenderer 2 720 1280 160 160 30 ∈ (renderer_init false reregCallB).events ∧
    Event.startRenderer 2 720 1280 160 160 20 ∈ (renderer_init false reregCallA).events :=
  ⟨(fps_clamp reregCallB ⟨2, 720, 1280⟩ rfl).1 (by decide),
   (fps_clamp reregCallA ⟨2, 720, 1280⟩ rfl).2 (by decide)⟩

/-- C4 counterexample: a null native-window resolution in
`renderer_reset_window` is not aborted — a downstream renderer call is still
issued with the null handle, and no error is logged. -/
theorem reset_window_null_counterexample :
    (renderer_reset_window 0 5 7 1080 1920).any isRendererCall = true ∧
    (renderer_reset_window 0 5 7 1080 1920).any isErrorLog = false := by
  decide

/-- C4 (amended): only `renderer_init` aborts on a null resolution — it logs
an error, makes no collaborator call, leaves the flag unchanged, does not
panic, and has no effect on any later call; `renderer_reset_window` and
`renderer_remove_window` instead pass the null handle straight to the
renderer. -/
theorem null_resolution_behaviour (st : Bool) (c : InitCall) (hres : c.resolved = none) :
    renderer_init st c =
      ⟨st, [Event.logDebug "renderer_init",
            Event.logError "ANativeWindow_fromSurface was null!"], false⟩ ∧
    (renderer_init st c).events.any isCollabCall = false ∧
    (∀ c', renderer_init (renderer_init st c).started c' = renderer_init st c') ∧
    (∀ t l wd ht, renderer_reset_window 0 t l wd ht =
       [Event.resetSubWindow 0 0 0 wd ht wd ht 1 0]) ∧
    renderer_remove_window 0 = [Event.removeSubWindow 0] := by
  have h := renderer_init_null st c hres
  refine ⟨h, ?_, ?_, fun t l wd ht => rfl, rfl⟩
  · rw [h]
    rfl
  · intro c'
    rw [h]

/-- Witness for the amended C4 at a concrete null-resolution call. -/
theorem null_resolution_behaviour_witness :
    renderer_init true nullResCall =
      ⟨true, [Event.logDebug "renderer_init",
              Event.logError "ANativeWindow_fromSurface was null!"], false⟩ :=
  (null_resolution_behaviour true nullResCall rfl).1

/-- C5: if log-file creation fails during the full-bootstrap path, the
container launch is abandoned without error while the worker dispatch and the
render-loop start still occur; the flag remains set and no panic escapes. -/
theorem log_failure_resilience (c : InitCall) (w : Window) (s : String)
    (hres : c.resolved = some w) (hl : c.loaderStr = some s)
    (hlog : c.logCreateOk = false) :
    (renderer_init false c).events.any isThreadSpawn = true ∧
    Event.startRenderer w.ptr w.width w.height c.xdpi c.ydpi (safe_fps c.fps)
      ∈ (renderer_init false c).events ∧
    (renderer_init false c).events.any isSpawnProcess = false ∧
    (renderer_init false c).started = true ∧
    (renderer_init false c).panicked = false := by
  have hb := renderer_init_boot c w hres
  have hperm := permEvents_any_false c.devInputEntries isSpawnProcess (fun _ _ => rfl)
  have htail : (bootTail c).any isSpawnProcess = false := by
    simp [bootTail, hl, launchEvents, hlog, isSpawnProcess]
  refine ⟨?_, ?_, ?_, renderer_init_started false c w hres, ?_⟩
  · rw [hb]
    simp [isThreadSpawn]
  · rw [hb]
    simp
  · rw [hb]
    simp [List.any_append, hperm, htail, isSpawnProcess]
  · rw [hb]
    simp [bootPanicked, hl, launchEvents, hlog]

/-- Witness for C5 at a concrete call whose log-file creation fails. -/
theorem log_failure_resilience_witness :
    (renderer_init false logFailCall).events.any isSpawnProcess = false ∧
    (renderer_init false logFailCall).panicked = false :=
  have h := log_failure_resilience logFailCall ⟨3, 1080, 2400⟩ "/data/loader" rfl rfl rfl
  ⟨h.2.2.1, h.2.2.2.2⟩

/-- C6 counterexample: a failing loader-string extraction, and a failing
log-handle duplication, each make `renderer_init` panic (a failed `unwrap`),
contradicting the claim that every failure is absorbed locally. -/
theorem unwrap_panics_counterexample :
    (renderer_init false loaderFailCall).panicked = true ∧
    (renderer_init false cloneFailCall).panicked = true := by
  decide

/-- C6 (amended): every failure other than loader-string extraction and
log-handle duplication is absorbed locally: whenever those two operations
succeed, no `renderer_init` call panics, whatever the other outcomes (null
resolution, directory-enumeration failure, permission-set failure, log-file
creation failure, discarded spawn result). -/
theorem no_panic_except_unwraps (st : Bool) (c : InitCall) (s : String)
    (hl : c.loaderStr = some s) (htc : c.tryCloneOk = true) :
    (renderer_init st c).panicked = false := by
  cases hres : c.resolved with
  | none => rw [renderer_init_null st c hres]
  | some w =>
      cases st
      · rw [renderer_init_boot c w hres]
        cases hlc : c.logCreateOk <;>
          simp [bootPanicked, hl, launchEvents, htc, hlc]
      · rw [renderer_init_rereg c w hres]

/-- Witness for the amended C6 at a concrete call. -/
theorem no_panic_except_unwraps_witness :
    (renderer_init false reregCallA).panicked = false :=
  no_panic_except_unwraps false reregCallA "/data/loader" rfl rfl

/-- C7: the guest process is spawned exactly once, during full bootstrap, as
`nice -n 5 ./init` with working directory the fixed guest root, exactly one
environment variable `TYLOADER` bound to the host-supplied loader path, and
stdout and stderr both redirected to the single freshly created log file;
re-registration calls never spawn. -/
theorem guest_spawn_once_fixed_command (c : InitCall) (w : Window) (s : String)
    (hres : c.resolved = some w) (hl : c.loaderStr = some s)
    (hlog : c.logCreateOk = true) (htc : c.tryCloneOk = true) :
    (renderer_init false c).events.countP isSpawnProcess = 1 ∧
    Event.spawnProcess "nice" ["-n", "5", "./init"] working_dir
      [("TYLOADER", s)] log_path log_path ∈ (renderer_init false c).events ∧
    (∀ c', (renderer_init true c').events.countP isSpawnProcess = 0) := by
  have hcount0 : ∀ (l : List Event) (p : Event → Bool), l.any p = false → l.countP p = 0 :=
    fun l p h => List.countP_eq_zero.mpr (List.any_eq_false.mp h)
  have htail : bootTail c =
      [Event.createLogFile log_path,
       Event.spawnProcess "nice" ["-n", "5", "./init"] working_dir
         [("TYLOADER", s)] log_path log_path] := by
    simp [bootTail, hl, launchEvents, hlog, htc]
  have hperm : (permEvents c.devInputEntries).countP isSpawnProcess = 0 :=
    hcount0 _ _ (permEvents_any_false c.devInputEntries isSpawnProcess (fun _ _ => rfl))
  refine ⟨?_, ?_, ?_⟩
  · rw [renderer_init_boot c w hres, htail]
    simp [List.countP_append, hperm, isSpawnProcess, List.countP_cons]
  · rw [renderer_init_boot c w hres, htail]
    simp
  · intro c'
    cases hres' : c'.resolved with
    | none =>
        rw [renderer_init_null true c' hres']
        rfl
    | some w' =>
        rw [renderer_init_rereg c' w' hres']
        rfl

/-- Witness for C7 at a concrete bootstrap call. -/
theorem guest_spawn_once_fixed_command_witness :
    Event.spawnProcess "nice" ["-n", "5", "./init"] working_dir
      [("TYLOADER", "/data/loader")] log_path log_path
      ∈ (renderer_init false reregCallA).events :=
  (guest_spawn_once_fixed_command reregCallA ⟨2, 720, 1280⟩ "/data/loader"
    rfl rfl rfl rfl).2.1

/-- C8: every `renderer_reset_window` call resizes/repositions the sub-window
to full extent at position (0,0) with the passed width and height, scale 1.0
and rotation 0.0; the top and left arguments have no effect on the
outcome. -/
theorem reset_window_full_extent (winPtr : Nat)
    (top left top' left' width height : Int) :
    renderer_reset_window winPtr top left width height =
      [Event.resetSubWindow winPtr 0 0 width height width height 1 0] ∧
    renderer_reset_window winPtr top left width height =
      renderer_reset_window winPtr top' left' width height :=
  ⟨rfl, rfl⟩

/-- C9: a `handle_touch` call whose event is null, or whose backing native
pointer resolves to null, produces zero calls into the input bridge; a valid
event produces exactly one forwarding call carrying the same pointer
payload. -/
theorem touch_forwarding (c : TouchCall) :
    ((c.eventNull = true ∨ c.nativePtrField = some (some 0)) →
       handle_touch c = []) ∧
    (∀ p : Int, c.eventNull = false → c.nativePtrField = some (some p) →
       p ≠ 0 → handle_touch c = [Event.submitMotion p]) := by
  obtain ⟨en, f⟩ := c
  constructor
  · rintro (h | h)
    · subst h
      rfl
    · subst h
      cases en <;> rfl
  · rintro p hen hf hp
    subst hen
    subst hf
    simp [handle_touch, hp]

/-- Witness for C9: a null event is dropped; a valid event with pointer 5 is
forwarded once. -/
theorem touch_forwarding_witness :
    handle_touch ⟨true, some (some 5)⟩ = [] ∧
    handle_touch ⟨false, some (some 5)⟩ = [Event.submitMotion 5] :=
  ⟨(touch_forwarding ⟨true, some (some 5)⟩).1 (Or.inl rfl),
   (touch_forwarding ⟨false, some (some 5)⟩).2 5 rfl rfl (by decide)⟩

/-- C10 counterexample: two re-registration calls identical except for the
requested fps produce different observable results — the informational log
line carries the requested and clamped fps, so fps is read on that path. -/
theorem rereg_fps_read_counterexample :
    renderer_init true reregCallA ≠ renderer_init true reregCallB := by
  decide

/-- C10 (amended): on the re-registration path the loader, xdpi and ydpi
arguments are never read, and fps influences only the informational log line:
any two re-registration calls resolving the same window issue identical
collaborator calls, and produce identical whole results whenever their fps
agree. -/
theorem rereg_ignores_loader_dpi (c c' : InitCall) (w : Window)
    (h1 : c.resolved = some w) (h2 : c'.resolved = some w) :
    (renderer_init true c).events.filter isCollabCall =
      (renderer_init true c').events.filter isCollabCall ∧
    (c.fps = c'.fps → renderer_init true c = renderer_init true c') := by
  rw [renderer_init_rereg c w h1, renderer_init_rereg c' w h2]
  constructor
  · rfl
  · intro h
    rw [h]

/-- Witness for the amended C10: the two fps-differing re-registration calls
issue identical collaborator calls. -/
theorem rereg_ignores_loader_dpi_witness :
    (renderer_init true reregCallA).events.filter isCollabCall =
      (renderer_init true reregCallB).events.filter isCollabCall :=
  (rereg_ignores_loader_dpi reregCallA reregCallB ⟨2, 720, 1280⟩ rfl rfl).1

end Twoyi
